import Mathlib

/-!
Verification of the NiceMail mail-reader core (`src/nicemail/core`).

The Python source is shallowly embedded: dataclasses become structures,
in-place mutation becomes functions returning the updated record, and the
two external effects (the IMAP server and the HTTPS classification service)
become explicit oracle parameters whose codomains enumerate exactly the
observable outcomes the surrounding code distinguishes.  Python floats
(`confidence`, `threshold`) are carried but never compared or combined by
the code under study, so an opaque integer stand-in is faithful; timezone
aware datetimes are modelled as integer instants (comparison is all the
code uses).
-/

/-- Embeds `MailFolder` from `core/mail_client.py` (lines 17-22). -/
structure MailFolder where
  name : String
  display_name : String
  is_primary : Bool := false
  sort_index : Int := 0
deriving DecidableEq

/-- Embeds `MailMessage` from `core/mail_client.py` (lines 25-37).
`date_received` models the timezone-aware datetime as an instant. -/
structure MailMessage where
  id : String
  account_id : String
  subject : String
  sender : String
  preview : String
  date_received : Int
  is_unread : Bool := true
  is_flagged : Bool := false
  folder : String := "INBOX"
deriving DecidableEq

/-- Embeds `MailAccountConfig` from `core/config.py` (lines 15-27). -/
structure MailAccountConfig where
  name : String
  address : String
  incoming_server : String
  protocol : String := "imap"
  port : Int := 993
  username : Option String := none
  password : Option String := none
  use_ssl : Bool := true
deriving DecidableEq

/-- Embeds `SpamConfig` from `core/config.py` (lines 29-37); `threshold`
models the float 0.6 opaquely (the code never reads it on the filter path). -/
structure SpamConfig where
  provider : String := "chatgpt"
  api_key : Option String := none
  model : String := "gpt-4o-mini"
  threshold : Int := 60
  enabled : Bool := true
deriving DecidableEq

/-- Embeds `SpamAssessment` from `core/spam_manager.py` (lines 14-18). -/
structure SpamAssessment where
  message_id : String
  is_spam : Bool
  confidence : Int
deriving DecidableEq

/-- Outcome of parsing one choice entry's `content[0].text` JSON fragment
(`spam_manager.py` lines 64-68): either it is not valid JSON
(`json.JSONDecodeError`) or it yields `is_spam` / `confidence` values. -/
inductive ItemText where
  | invalidJson : ItemText
  | parsed (is_spam : Bool) (confidence : Int) : ItemText
deriving DecidableEq

/-- One entry of the response's `choices` list (`spam_manager.py` lines
60-64): `message_id` is `metadata.message_id` (`none` models a missing or
empty id, which Python treats as falsy) and `text` the embedded fragment. -/
structure ChoiceEntry where
  message_id : Option String
  text : ItemText
deriving DecidableEq

/-- Observable outcome of the HTTPS call in `_assess_messages`
(`spam_manager.py` lines 51-58): `failure` covers a transport error, a
non-success status (`raise_for_status`) and a body `response.json()` cannot
parse — everything the `except Exception` in `filter_messages` catches —
while `success` carries the decoded `choices` list. -/
inductive SvcResponse where
  | failure : SvcResponse
  | success (choices : List ChoiceEntry) : SvcResponse
deriving DecidableEq

/-- Python truthiness of `self._config.api_key` (`Optional[str]`):
`None` and the empty string are falsy (`spam_manager.py` line 28). -/
def SpamConfig.keyMissing (cfg : SpamConfig) : Bool :=
  match cfg.api_key with
  | none => true
  | some k => k == ""

namespace SpamManager

/-- The per-entry decode loop of `_assess_messages` (`spam_manager.py`
lines 60-76): entries with a falsy `message_id` or an unparseable embedded
fragment are skipped (`continue`); the rest become assessments. -/
def parseAssessments (choices : List ChoiceEntry) : List SpamAssessment :=
  choices.filterMap fun entry =>
    match entry.message_id with
    | none => none
    | some mid =>
      if mid = "" then none
      else
        match entry.text with
        | ItemText.invalidJson => none
        | ItemText.parsed s c => some ⟨mid, s, c⟩

/-- Embeds `_assess_messages` (`spam_manager.py` lines 43-76) over the
service oracle `respond`: an empty batch short-circuits before any call;
a failed call is the raised exception (`none`); a successful call yields
the decoded assessments. -/
def assessMessages (respond : List MailMessage → SvcResponse)
    (messages : List MailMessage) : Option (List SpamAssessment) :=
  if messages.isEmpty then some []
  else
    match respond messages with
    | SvcResponse.failure => none
    | SvcResponse.success choices => some (parseAssessments choices)

/-- The blocklist comprehension on `spam_manager.py` line 35:
ids of assessments whose `is_spam` is true. -/
def blocklist (assessments : List SpamAssessment) : List String :=
  (assessments.filter fun a => a.is_spam).map fun a => a.message_id

/-- Embeds `SpamManager.filter_messages` (`spam_manager.py` lines 27-40):
pass-through when disabled or keyless, pass-through when `_assess_messages`
raises, otherwise keep exactly the messages whose id is not blocklisted. -/
def filter_messages (cfg : SpamConfig) (respond : List MailMessage → SvcResponse)
    (messages : List MailMessage) : List MailMessage :=
  if !cfg.enabled || cfg.keyMissing then messages
  else
    match assessMessages respond messages with
    | none => messages
    | some assessments =>
      messages.filter fun m => !(blocklist assessments).contains m.id

end SpamManager

/-- One record of the bundled `sample_messages.json` fixture, as consumed
by `_load_sample_messages` (`mail_client.py` lines 146-158). -/
structure SampleEntry where
  id : String
  subject : String
  sender : String
  preview : String
  date_received : Int
  is_unread : Bool := true
  is_flagged : Bool := false
  folder : String := "INBOX"
deriving DecidableEq

/-- One message as the IMAP loop of `_fetch_imap` (`mail_client.py` lines
94-116) would decode it: the server-side identifier plus the already
decoded header/body/flag fields. -/
structure ImapFetchItem where
  msg_id : String
  subject : String
  sender : String
  preview : String
  date_received : Int
  seen : Bool
  flagged : Bool
deriving DecidableEq

/-- Composite id built on `mail_client.py` line 107:
`f"{self.account.address}:{msg_id.decode()}"`. -/
def imapMessageId (address msg_id : String) : String :=
  address ++ ":" ++ msg_id

/-- Sample-data id built on `mail_client.py` line 149:
`f"sample:{entry['id']}"` — note the account address is not used. -/
def sampleMessageId (entry_id : String) : String :=
  "sample:" ++ entry_id

/-- The message constructed from one sample entry
(`mail_client.py` lines 147-159). -/
def sampleMessage (address : String) (e : SampleEntry) : MailMessage :=
  { id := sampleMessageId e.id
    account_id := address
    subject := e.subject
    sender := e.sender
    preview := e.preview
    date_received := e.date_received
    is_unread := e.is_unread
    is_flagged := e.is_flagged
    folder := e.folder }

/-- The message constructed from one fetched IMAP item
(`mail_client.py` lines 106-115): unread iff the `\Seen` flag is absent. -/
def imapMessage (address : String) (it : ImapFetchItem) : MailMessage :=
  { id := imapMessageId address it.msg_id
    account_id := address
    subject := it.subject
    sender := it.sender
    preview := it.preview
    date_received := it.date_received
    is_unread := !it.seen
    is_flagged := it.flagged
    folder := "INBOX" }

/-- Embeds `MailClient` (`mail_client.py` lines 40-46) together with its
two data sources: `sampleEntries` is the decoded fixture file the instance
would cache, `imapItems`/`imapOk` the outcome of one `_fetch_imap` session
(`imapOk = false` models any network or protocol failure, which degrades
to an empty result). -/
structure MailClient where
  account : MailAccountConfig
  use_sample_data : Bool := false
  sampleEntries : List SampleEntry := []
  imapItems : List ImapFetchItem := []
  imapOk : Bool := true
deriving DecidableEq

namespace MailClient

/-- Embeds `list_primary_folders` (`mail_client.py` lines 49-59): the
static five-folder catalog, identical for every account. -/
def list_primary_folders (_c : MailClient) : List MailFolder :=
  [ { name := "INBOX", display_name := "Inbox", is_primary := true, sort_index := 0 },
    { name := "STARRED", display_name := "Favorites", sort_index := 1 },
    { name := "SENT", display_name := "Sent", sort_index := 2 },
    { name := "ARCHIVE", display_name := "Archive", sort_index := 3 },
    { name := "SPAM", display_name := "Spam", sort_index := 4 } ]

/-- Embeds `_load_sample_messages` (`mail_client.py` lines 138-161)
applied to the decoded fixture. -/
def loadSampleMessages (c : MailClient) : List MailMessage :=
  c.sampleEntries.map (sampleMessage c.account.address)

/-- Embeds `_fetch_imap` (`mail_client.py` lines 84-119): every decoded
item becomes a message; any failure yields the empty list. -/
def fetchImap (c : MailClient) : List MailMessage :=
  if c.imapOk then c.imapItems.map (imapMessage c.account.address) else []

/-- Embeds `fetch_inbox` (`mail_client.py` lines 62-68): sample data when
the client was built with `use_sample_data` or the protocol is `"demo"`,
IMAP when the protocol lower-cases to `"imap"`, empty otherwise. -/
def fetch_inbox (c : MailClient) (limit : Nat) : List MailMessage :=
  if c.use_sample_data || c.account.protocol == "demo" then
    c.loadSampleMessages.take limit
  else if c.account.protocol.toLower == "imap" then
    c.fetchImap
  else
    []

/-- Embeds `owns_message` (`mail_client.py` lines 70-71). -/
def owns_message (c : MailClient) (m : MailMessage) : Bool :=
  m.account_id == c.account.address

/-- Embeds `mark_as_read` (`mail_client.py` lines 73-76): the updated
message, paired with whether `_imap_flag` — a network flag push — is
attempted (it is, unless `use_sample_data` is set). -/
def mark_as_read (c : MailClient) (m : MailMessage) : MailMessage × Bool :=
  ({ m with is_unread := false }, !c.use_sample_data)

/-- Embeds `toggle_flag` (`mail_client.py` lines 78-81), same shape as
`mark_as_read`. -/
def toggle_flag (c : MailClient) (m : MailMessage) : MailMessage × Bool :=
  ({ m with is_flagged := !m.is_flagged }, !c.use_sample_data)

end MailClient

/-- The default-whitespace strip of Python `str.strip()`
restricted to the characters it can see in decoded mail bodies. -/
def pyStrip (body : List Char) : List Char :=
  ((body.dropWhile Char.isWhitespace).reverse.dropWhile Char.isWhitespace).reverse

/-- The last two lines of `_extract_preview` (`mail_client.py` lines
190-191): `body.strip().replace("\n", " ")[:200]`, on the decoded body. -/
def extract_preview (body : List Char) : List Char :=
  ((pyStrip body).map fun c => if c = '\n' then ' ' else c).take 200

/-- The descending stable order used by `messages.sort(key=..., reverse=True)`
(`controller.py` line 44): `a` precedes `b` when `b`'s receipt time is not
later than `a`'s. -/
def msgOrder (a b : MailMessage) : Prop :=
  b.date_received ≤ a.date_received

instance : DecidableRel msgOrder :=
  fun a b => inferInstanceAs (Decidable (b.date_received ≤ a.date_received))

instance : IsTotal MailMessage msgOrder :=
  ⟨fun a b => Int.le_total b.date_received a.date_received⟩

instance : IsTrans MailMessage msgOrder :=
  ⟨fun _ _ _ h1 h2 => Int.le_trans h2 h1⟩

/-- The ascending order used by `sorted(unique.values(), key=lambda f:
f.sort_index)` (`controller.py` line 50). -/
def folderOrder (f g : MailFolder) : Prop :=
  f.sort_index ≤ g.sort_index

instance : DecidableRel folderOrder :=
  fun f g => inferInstanceAs (Decidable (f.sort_index ≤ g.sort_index))

instance : IsTotal MailFolder folderOrder :=
  ⟨fun f g => Int.le_total f.sort_index g.sort_index⟩

instance : IsTrans MailFolder folderOrder :=
  ⟨fun _ _ _ h1 h2 => Int.le_trans h1 h2⟩

/-- The dict key `(folder.name, folder.display_name)` of
`controller.py` line 47. -/
def keyOf (f : MailFolder) : String × String :=
  (f.name, f.display_name)

/-- Python dict assignment `unique[key] = folder` on an insertion-ordered
association list: replace in place when the key exists, append otherwise. -/
def updateAssoc (k : String × String) (f : MailFolder) :
    List ((String × String) × MailFolder) → List ((String × String) × MailFolder)
  | [] => [(k, f)]
  | (k', f') :: rest =>
    if k' = k then (k, f) :: rest else (k', f') :: updateAssoc k f rest

/-- Python dict lookup on the insertion-ordered association list. -/
def findKey (k : String × String) :
    List ((String × String) × MailFolder) → Option MailFolder
  | [] => none
  | (k', f') :: rest => if k' = k then some f' else findKey k rest

/-- Python `key in unique`. -/
def containsKey (k : String × String)
    (u : List ((String × String) × MailFolder)) : Bool :=
  (findKey k u).isSome

/-- One iteration of the dedup loop (`controller.py` lines 46-49):
`if key not in unique or folder.is_primary: unique[key] = folder`. -/
def dedupStep (u : List ((String × String) × MailFolder)) (f : MailFolder) :
    List ((String × String) × MailFolder) :=
  if !containsKey (keyOf f) u || f.is_primary then
    updateAssoc (keyOf f) f u
  else u

/-- The whole dedup loop of `controller.py` lines 45-49. -/
def dedupFolders (folders : List MailFolder) :
    List ((String × String) × MailFolder) :=
  folders.foldl dedupStep []

/-- Lines 45-50 of `controller.py`: dedup by `(name, display_name)` with
primary preference, then `sorted(unique.values(), key=... sort_index)`. -/
def aggregate_folders (folders : List MailFolder) : List MailFolder :=
  List.insertionSort folderOrder ((dedupFolders folders).map Prod.snd)

/-- Embeds `InboxData` (`controller.py` lines 13-19). -/
structure InboxData where
  folders : List MailFolder
  messages : List MailMessage
  unread_count : Nat
deriving DecidableEq

namespace MailController

/-- Embeds `MailController.load_initial_inbox` (`controller.py` lines
35-51): per client, extend the folder list with its static catalog and the
message list with its spam-filtered 50-message fetch; count unread; sort
messages newest first; dedup and rank-sort folders. -/
def load_initial_inbox (spam : SpamConfig)
    (respond : List MailMessage → SvcResponse)
    (clients : List MailClient) : InboxData :=
  let messages := clients.foldl
    (fun acc c => acc ++ SpamManager.filter_messages spam respond (c.fetch_inbox 50)) []
  let folders := clients.foldl (fun acc c => acc ++ c.list_primary_folders) []
  let unread_count := messages.countP fun m => m.is_unread
  InboxData.mk (aggregate_folders folders)
    (List.insertionSort msgOrder messages) unread_count

/-- Embeds `MailController.mark_as_read` (`controller.py` lines 61-65):
route to the first owning client (loop with `break`); when none owns the
message nothing runs.  Result: the message as left by the call, and
whether any remote flag push was attempted. -/
def mark_as_read (clients : List MailClient) (m : MailMessage) :
    MailMessage × Bool :=
  match clients.find? fun c => c.owns_message m with
  | some c => c.mark_as_read m
  | none => (m, false)

/-- Embeds `MailController.toggle_flag` (`controller.py` lines 67-71). -/
def toggle_flag (clients : List MailClient) (m : MailMessage) :
    MailMessage × Bool :=
  match clients.find? fun c => c.owns_message m with
  | some c => c.toggle_flag m
  | none => (m, false)

end MailController

/-- Specification-side predicate: the decoded response carries a spam
verdict (`is_spam == true`) for the given message id. -/
def hasSpamVerdict (choices : List ChoiceEntry) (mid : String) : Prop :=
  ∃ a ∈ SpamManager.parseAssessments choices, a.message_id = mid ∧ a.is_spam = true

instance (choices : List ChoiceEntry) (mid : String) :
    Decidable (hasSpamVerdict choices mid) :=
  List.decidableBEx _ _

/-- Invariant of the dedup association list: every stored key is the key
of its folder (`unique[key] = folder` is only ever called with
`key = (folder.name, folder.display_name)`). -/
def EntriesMatch (u : List ((String × String) × MailFolder)) : Prop :=
  ∀ e ∈ u, e.1 = keyOf e.2

/-- Combined invariant of the dedup dict: keys match their folders and no
key occurs twice (a Python dict cannot hold duplicate keys). -/
def DedupInv (u : List ((String × String) × MailFolder)) : Prop :=
  EntriesMatch u ∧ (u.map Prod.fst).Nodup

/-- Concrete fixture: a non-spam test message. -/
def mX : MailMessage :=
  { id := "x", account_id := "a@x", subject := "sx", sender := "fx",
    preview := "px", date_received := 5 }

/-- Concrete fixture: a message the service will judge spam. -/
def mY : MailMessage :=
  { id := "y", account_id := "a@x", subject := "sy", sender := "fy",
    preview := "py", date_received := 3 }

/-- Concrete fixture: spam filtering enabled with a credential. -/
def cfgOn : SpamConfig := { api_key := some "k" }

/-- Concrete fixture: response items whose first entry has an unparseable
embedded fragment while the second carries a spam verdict for id `"y"`. -/
def choicesPartial : List ChoiceEntry :=
  [ { message_id := some "x", text := ItemText.invalidJson },
    { message_id := some "y", text := ItemText.parsed true 90 } ]

/-- Concrete fixture: a successful service response carrying
`choicesPartial`. -/
def respPartial : List MailMessage → SvcResponse := fun _ =>
  SvcResponse.success choicesPartial

/-- Concrete fixture: well-formed response items judging `"x"` legitimate
and `"y"` spam. -/
def choicesSpam : List ChoiceEntry :=
  [ { message_id := some "x", text := ItemText.parsed false 10 },
    { message_id := some "y", text := ItemText.parsed true 90 } ]

/-- Concrete fixture: a successful service response carrying
`choicesSpam`. -/
def respSpam : List MailMessage → SvcResponse := fun _ =>
  SvcResponse.success choicesSpam

/-- Concrete fixture: a service call that fails (transport error, bad
status, or unparseable body). -/
def respFail : List MailMessage → SvcResponse := fun _ =>
  SvcResponse.failure

/-- Concrete fixture: spam filtering enabled but no credential set. -/
def cfgNoKey : SpamConfig := {}

/-- Concrete fixture: a message owned by an account no client is
configured for. -/
def mForeign : MailMessage :=
  { id := "f", account_id := "z@z", subject := "sf", sender := "ff",
    preview := "pf", date_received := 1 }

/-- Concrete fixture: a decoded IMAP item. -/
def itA : ImapFetchItem :=
  { msg_id := "1", subject := "s1", sender := "f1", preview := "p1",
    date_received := 4, seen := false, flagged := false }

/-- Concrete fixture: a second decoded IMAP item. -/
def itB : ImapFetchItem :=
  { msg_id := "2", subject := "s2", sender := "f2", preview := "p2",
    date_received := 6, seen := true, flagged := true }

/-- Concrete fixture: the primary Inbox folder entry. -/
def fInboxPrimary : MailFolder :=
  { name := "INBOX", display_name := "Inbox", is_primary := true, sort_index := 0 }

/-- Concrete fixture: a conflicting non-primary copy of the Inbox entry. -/
def fInboxDup : MailFolder :=
  { name := "INBOX", display_name := "Inbox", is_primary := false, sort_index := 9 }

/-- Concrete fixture: an unrelated folder entry. -/
def fSent : MailFolder :=
  { name := "SENT", display_name := "Sent", sort_index := 2 }

/-- Concrete fixture: one sample-dataset record. -/
def sampleE : SampleEntry :=
  { id := "welcome-01", subject := "w", sender := "t", preview := "p",
    date_received := 7 }

/-- Concrete fixture: a configured account whose protocol is `"demo"`, as a
configuration file may specify; the controller builds its client with
`use_sample_data = False` (`controller.py` line 28). -/
def demoAccountA : MailAccountConfig :=
  { name := "A", address := "a@x", incoming_server := "srv", protocol := "demo" }

/-- Concrete fixture: a second configured demo-protocol account with a
different address. -/
def demoAccountB : MailAccountConfig :=
  { name := "B", address := "b@y", incoming_server := "srv", protocol := "demo" }

/-- Concrete fixture: client for `demoAccountA`, built as the controller
builds clients for configured accounts. -/
def demoClientA : MailClient :=
  { account := demoAccountA, sampleEntries := [sampleE] }

/-- Concrete fixture: client for `demoAccountB`, sharing the bundled
sample fixture file. -/
def demoClientB : MailClient :=
  { account := demoAccountB, sampleEntries := [sampleE] }

/-- Concrete fixture: a client explicitly constructed on sample data, as
`ensure_sample_client` does (`controller.py` lines 73-81). -/
def sampleBackedClient : MailClient :=
  { account := demoAccountA, use_sample_data := true, sampleEntries := [sampleE] }

theorem filter_messages_failure (cfg : SpamConfig)
    (respond : List MailMessage → SvcResponse) (messages : List MailMessage)
    (hresp : respond messages = SvcResponse.failure) :
    SpamManager.filter_messages cfg respond messages = messages := by
  unfold SpamManager.filter_messages SpamManager.assessMessages
  cases messages with
  | nil => by_cases hg : (!cfg.enabled || cfg.keyMissing) = true <;> simp [hg]
  | cons a t =>
    by_cases hg : (!cfg.enabled || cfg.keyMissing) = true
    · simp [hg]
    · simp [hg, hresp]

theorem filter_messages_success (cfg : SpamConfig)
    (respond : List MailMessage → SvcResponse) (messages : List MailMessage)
    (choices : List ChoiceEntry)
    (hresp : respond messages = SvcResponse.success choices)
    (hen : cfg.enabled = true) (hke : cfg.keyMissing = false) :
    SpamManager.filter_messages cfg respond messages =
      messages.filter fun m =>
        !(SpamManager.blocklist (SpamManager.parseAssessments choices)).contains m.id := by
  unfold SpamManager.filter_messages SpamManager.assessMessages
  cases messages with
  | nil => simp [hen, hke]
  | cons a t => simp [hen, hke, hresp]

theorem blocklist_contains_iff (choices : List ChoiceEntry) (mid : String) :
    ((SpamManager.blocklist (SpamManager.parseAssessments choices)).contains mid = true) ↔
      hasSpamVerdict choices mid := by
  unfold hasSpamVerdict SpamManager.blocklist
  rw [List.elem_iff]
  constructor
  · intro h
    rcases List.mem_map.mp h with ⟨a, hmemf, hmid⟩
    rcases List.mem_filter.mp hmemf with ⟨hmem, hspam⟩
    exact ⟨a, hmem, hmid, hspam⟩
  · rintro ⟨a, hmem, hmid, hspam⟩
    exact List.mem_map.mpr ⟨a, List.mem_filter.mpr ⟨hmem, hspam⟩, hmid⟩

/-- C1 (counterexample): with filtering enabled and a credential set, a
successful response whose first item's embedded text is not valid JSON
does not abort the batch: the verdict of the well-formed second item is
still applied, so the result is `[mX]`, not the original `[mX, mY]`. -/
theorem filter_malformed_item_counterexample :
    SpamManager.filter_messages cfgOn respPartial [mX, mY] = [mX] ∧
      SpamManager.filter_messages cfgOn respPartial [mX, mY] ≠ [mX, mY] := by
  decide

/-- C1 (amended): with filtering enabled and a credential set, a transport
error, non-success status, or unparseable response body (the `failure`
outcome) aborts the whole batch and returns the input unchanged; on a
`success` outcome, an item whose embedded text is not valid JSON merely
contributes no verdict (its message is kept), while verdicts from the
well-formed items are still applied. -/
theorem filter_messages_abort_vs_skip (cfg : SpamConfig)
    (respond : List MailMessage → SvcResponse) (messages : List MailMessage)
    (hen : cfg.enabled = true) (hke : cfg.keyMissing = false) :
    (respond messages = SvcResponse.failure →
        SpamManager.filter_messages cfg respond messages = messages) ∧
      ∀ choices, respond messages = SvcResponse.success choices →
        SpamManager.filter_messages cfg respond messages =
          messages.filter fun m =>
            !(SpamManager.blocklist (SpamManager.parseAssessments choices)).contains m.id :=
  ⟨fun h => filter_messages_failure cfg respond messages h,
   fun choices h => filter_messages_success cfg respond messages choices h hen hke⟩

/-- C1 (witness): the amended theorem applied to a concrete failing call. -/
theorem filter_messages_abort_vs_skip_witness :
    cfgOn.enabled = true ∧ cfgOn.keyMissing = false ∧
      SpamManager.filter_messages cfgOn respFail [mX, mY] = [mX, mY] :=
  ⟨by decide, by decide,
   (filter_messages_abort_vs_skip cfgOn respFail [mX, mY] (by decide) (by decide)).1 rfl⟩

/-- C2: the messages of the view returned by `load_initial_inbox` are
sorted by `date_received` in non-increasing (newest-first) order, for
every spam configuration, service behavior and client list. -/
theorem load_initial_inbox_messages_sorted (spam : SpamConfig)
    (respond : List MailMessage → SvcResponse) (clients : List MailClient) :
    ((MailController.load_initial_inbox spam respond clients).messages).Pairwise
      (fun a b => b.date_received ≤ a.date_received) :=
  List.sorted_insertionSort msgOrder _

/-- C4: when the classification call succeeds, `filter_messages` returns
exactly the input messages whose id carries no `is_spam = true` verdict,
as an order-preserving subsequence (sublist) of the input. -/
theorem filter_messages_success_exact (cfg : SpamConfig)
    (respond : List MailMessage → SvcResponse) (messages : List MailMessage)
    (choices : List ChoiceEntry)
    (hen : cfg.enabled = true) (hke : cfg.keyMissing = false)
    (hresp : respond messages = SvcResponse.success choices) :
    SpamManager.filter_messages cfg respond messages =
        messages.filter (fun m => decide (¬ hasSpamVerdict choices m.id)) ∧
      (SpamManager.filter_messages cfg respond messages).Sublist messages := by
  have hfm := filter_messages_success cfg respond messages choices hresp hen hke
  constructor
  · rw [hfm]
    apply List.filter_congr
    intro m _
    by_cases hP : hasSpamVerdict choices m.id
    · have hb := (blocklist_contains_iff choices m.id).mpr hP
      rw [hb]
      simp [hP]
    · have hb : ((SpamManager.blocklist
          (SpamManager.parseAssessments choices)).contains m.id) = false := by
        cases hc : (SpamManager.blocklist
            (SpamManager.parseAssessments choices)).contains m.id
        · rfl
        · exact absurd ((blocklist_contains_iff choices m.id).mp hc) hP
      rw [hb]
      simp [hP]
  · rw [hfm]
    exact List.filter_sublist messages

/-- C4 (witness): the theorem applied to a concrete successful call that
judges `mY` spam: exactly `mY` is dropped, order preserved. -/
theorem filter_messages_success_exact_witness :
    cfgOn.enabled = true ∧ cfgOn.keyMissing = false ∧
      SpamManager.filter_messages cfgOn respSpam [mX, mY] =
        List.filter (fun m => decide (¬ hasSpamVerdict choicesSpam m.id)) [mX, mY] ∧
      (SpamManager.filter_messages cfgOn respSpam [mX, mY]).Sublist [mX, mY] :=
  ⟨by decide, by decide,
   (filter_messages_success_exact cfgOn respSpam [mX, mY] choicesSpam
      (by decide) (by decide) rfl).1,
   (filter_messages_success_exact cfgOn respSpam [mX, mY] choicesSpam
      (by decide) (by decide) rfl).2⟩

/-- C7: the `unread_count` of the view returned by `load_initial_inbox`
equals the number of messages in the view's message sequence whose
`is_unread` field is true (it is computed afresh from the fetched batch on
every call; the pure embedding has no cache to consult). -/
theorem load_initial_inbox_unread_count (spam : SpamConfig)
    (respond : List MailMessage → SvcResponse) (clients : List MailClient) :
    (MailController.load_initial_inbox spam respond clients).unread_count =
      ((MailController.load_initial_inbox spam respond clients).messages).countP
        (fun m => m.is_unread) := by
  simp only [MailController.load_initial_inbox]
  exact ((List.perm_insertionSort msgOrder _).countP_eq _).symm

/-- C8: if spam filtering is disabled in configuration or no API
credential is configured, `filter_messages` returns exactly its input,
whatever the classification service would have answered. -/
theorem filter_messages_passthrough (cfg : SpamConfig)
    (respond : List MailMessage → SvcResponse) (messages : List MailMessage)
    (h : cfg.enabled = false ∨ cfg.keyMissing = true) :
    SpamManager.filter_messages cfg respond messages = messages := by
  unfold SpamManager.filter_messages
  rcases h with h | h <;> simp [h]

/-- C8 (witness): the theorem applied to a keyless configuration. -/
theorem filter_messages_passthrough_witness :
    (cfgNoKey.enabled = false ∨ cfgNoKey.keyMissing = true) ∧
      SpamManager.filter_messages cfgNoKey respSpam [mX, mY] = [mX, mY] :=
  ⟨by decide,
   filter_messages_passthrough cfgNoKey respSpam [mX, mY] (by decide)⟩

/-- C9: the preview produced by `_extract_preview`'s normalization step is
at most 200 characters long and contains no newline character (every
newline was replaced by a space before truncation). -/
theorem extract_preview_bounded (body : List Char) :
    (extract_preview body).length ≤ 200 ∧ '\n' ∉ extract_preview body := by
  constructor
  · exact List.length_take_le _ _
  · intro hmem
    have h2 : '\n' ∈ (pyStrip body).map (fun c => if c = '\n' then ' ' else c) :=
      List.mem_of_mem_take hmem
    rcases List.mem_map.mp h2 with ⟨c, _, hc⟩
    by_cases hcn : c = '\n'
    · rw [if_pos hcn] at hc
      exact absurd hc (by decide)
    · rw [if_neg hcn] at hc
      exact hcn hc

/-- C10: a message whose `account_id` matches no configured client's
address is a no-op for the controller's `mark_as_read` and `toggle_flag`:
the message is unchanged and no remote operation is attempted. -/
theorem controller_mutations_noop (clients : List MailClient) (m : MailMessage)
    (h : ∀ c ∈ clients, c.account.address ≠ m.account_id) :
    MailController.mark_as_read clients m = (m, false) ∧
      MailController.toggle_flag clients m = (m, false) := by
  have hf : (clients.find? fun c => c.owns_message m) = none := by
    apply List.find?_eq_none.mpr
    intro c hc
    simp only [MailClient.owns_message, beq_iff_eq]
    exact fun he => absurd he.symm (h c hc)
  constructor <;>
    simp [MailController.mark_as_read, MailController.toggle_flag, hf]

/-- C10 (witness): the theorem applied to one configured client and a
message from an unconfigured account. -/
theorem controller_mutations_noop_witness :
    (∀ c ∈ [demoClientA], c.account.address ≠ mForeign.account_id) ∧
      MailController.mark_as_read [demoClientA] mForeign = (mForeign, false) ∧
      MailController.toggle_flag [demoClientA] mForeign = (mForeign, false) :=
  ⟨by decide,
   (controller_mutations_noop [demoClientA] mForeign (by decide)).1,
   (controller_mutations_noop [demoClientA] mForeign (by decide)).2⟩

/-- C5 (counterexample): two configured demo-protocol accounts with
distinct addresses fetch the bundled sample fixture, whose ids carry the
fixed prefix `sample:` with no account scoping — both clients return the
same message id, so their id sets are not disjoint. -/
theorem sample_ids_shared_counterexample :
    demoClientA.account.address ≠ demoClientB.account.address ∧
      (demoClientA.fetch_inbox 50).map (fun m => m.id) = ["sample:welcome-01"] ∧
      (demoClientB.fetch_inbox 50).map (fun m => m.id) = ["sample:welcome-01"] := by
  decide

theorem append_colon_inj (a₁ : List Char) : ∀ (a₂ m₁ m₂ : List Char),
    ':' ∉ a₁ → ':' ∉ a₂ → a₁ ++ ':' :: m₁ = a₂ ++ ':' :: m₂ →
      a₁ = a₂ ∧ m₁ = m₂ := by
  induction a₁ with
  | nil =>
    intro a₂ m₁ m₂ _ h2 heq
    cases a₂ with
    | nil =>
      refine ⟨rfl, ?_⟩
      simpa using heq
    | cons c t =>
      rw [List.nil_append, List.cons_append] at heq
      have hc : c = ':' := (List.cons.injEq _ _ _ _ ▸ heq).1.symm
      exact absurd (hc ▸ List.mem_cons_self c t) h2
  | cons c t ih =>
    intro a₂ m₁ m₂ h1 h2 heq
    cases a₂ with
    | nil =>
      rw [List.cons_append, List.nil_append] at heq
      have hc : c = ':' := (List.cons.injEq _ _ _ _ ▸ heq).1
      exact absurd (hc ▸ List.mem_cons_self c t) h1
    | cons c' t' =>
      rw [List.cons_append, List.cons_append] at heq
      have hp := List.cons.injEq _ _ _ _ ▸ heq
      have h1' : ':' ∉ t := fun hm => h1 (List.mem_cons_of_mem c hm)
      have h2' : ':' ∉ t' := fun hm => h2 (List.mem_cons_of_mem c' hm)
      rcases ih t' m₁ m₂ h1' h2' hp.2 with ⟨hte, hme⟩
      exact ⟨by rw [hp.1, hte], hme⟩

/-- C5 (amended): messages built on the IMAP fetch path embed the owning
account's address before the first `:` of their composite id, so two
accounts with distinct colon-free addresses can never produce the same
message id; only the sample/demo path (see the counterexample) shares ids
across accounts. -/
theorem imap_ids_disjoint (a₁ a₂ : String) (it₁ it₂ : ImapFetchItem)
    (hne : a₁ ≠ a₂) (h1 : ':' ∉ a₁.data) (h2 : ':' ∉ a₂.data) :
    (imapMessage a₁ it₁).id ≠ (imapMessage a₂ it₂).id := by
  intro heq
  have hd : (a₁ ++ ":" ++ it₁.msg_id).data = (a₂ ++ ":" ++ it₂.msg_id).data :=
    congrArg String.data heq
  rw [String.data_append, String.data_append, String.data_append,
    String.data_append] at hd
  have hd' : a₁.data ++ ':' :: it₁.msg_id.data = a₂.data ++ ':' :: it₂.msg_id.data := by
    simpa [List.append_assoc] using hd
  exact hne (String.ext (append_colon_inj a₁.data a₂.data _ _ h1 h2 hd').1)

/-- C5 (witness): the amended theorem applied to two concrete addresses
and IMAP items. -/
theorem imap_ids_disjoint_witness :
    (("a@x" : String) ≠ "b@y") ∧ ':' ∉ ("a@x" : String).data ∧
      ':' ∉ ("b@y" : String).data ∧
      (imapMessage "a@x" itA).id ≠ (imapMessage "b@y" itB).id :=
  ⟨by decide, by decide, by decide,
   imap_ids_disjoint "a@x" "b@y" itA itB (by decide) (by decide) (by decide)⟩

/-- C6 (counterexample): a client built for a configured account whose
protocol is `"demo"` (so `use_sample_data = false`, as the controller
constructs it) fetches its messages from sample data, yet `mark_as_read`
still attempts the remote IMAP flag push (second component `true`). -/
theorem mark_as_read_demo_counterexample :
    demoClientA.use_sample_data = false ∧
      demoClientA.fetch_inbox 50 = [sampleMessage "a@x" sampleE] ∧
      (demoClientA.mark_as_read (sampleMessage "a@x" sampleE)).2 = true := by
  decide

/-- C6 (amended): for a client constructed with `use_sample_data = true`
(the sample-backed client the controller installs when no account is
configured), `mark_as_read` sets `is_unread` to false, leaves every other
field unchanged, and attempts no network call; a client whose protocol is
merely `"demo"` fetches sample data but still attempts the push. -/
theorem mark_as_read_sample_client (c : MailClient) (m : MailMessage)
    (h : c.use_sample_data = true) :
    c.mark_as_read m = ({ m with is_unread := false }, false) := by
  simp [MailClient.mark_as_read, h]

/-- C6 (witness): the amended theorem applied to the sample-backed
client. -/
theorem mark_as_read_sample_client_witness :
    sampleBackedClient.use_sample_data = true ∧
      sampleBackedClient.mark_as_read mX = ({ mX with is_unread := false }, false) :=
  ⟨by decide, mark_as_read_sample_client sampleBackedClient mX (by decide)⟩

theorem findKey_updateAssoc_self (k : String × String) (f : MailFolder) :
    ∀ u, findKey k (updateAssoc k f u) = some f := by
  intro u
  induction u with
  | nil => simp [updateAssoc, findKey]
  | cons e rest ih =>
    obtain ⟨k', f'⟩ := e
    by_cases h : k' = k <;> simp [updateAssoc, findKey, h, ih]


theorem findKey_updateAssoc_ne (k k' : String × String) (f : MailFolder)
    (hne : k' ≠ k) : ∀ u, findKey k (updateAssoc k' f u) = findKey k u := by
  intro u
  induction u with
  | nil => simp [updateAssoc, findKey, hne]
  | cons e rest ih =>
    obtain ⟨k'', f''⟩ := e
    by_cases h : k'' = k'
    · have hk2 : k'' ≠ k := fun hk => hne (h.symm.trans hk)
      simp [updateAssoc, findKey, h, hne, hk2]
    · by_cases h2 : k'' = k
      · have h3 : k ≠ k' := fun hh => hne hh.symm
        simp [updateAssoc, findKey, h, h2, h3]
      · simp [updateAssoc, findKey, h, h2, ih]

theorem findKey_none_iff (k : String × String) :
    ∀ u, findKey k u = none ↔ k ∉ u.map Prod.fst := by
  intro u
  induction u with
  | nil => simp [findKey]
  | cons e rest ih =>
    obtain ⟨k', f'⟩ := e
    by_cases h : k' = k
    · simp [findKey, h]
    · have h' : k ≠ k' := fun hk => h hk.symm
      simp [findKey, h, h', ih]

theorem keys_updateAssoc_present (k : String × String) (f : MailFolder) :
    ∀ u, containsKey k u = true →
      (updateAssoc k f u).map Prod.fst = u.map Prod.fst := by
  intro u
  induction u with
  | nil => intro h; simp [containsKey, findKey] at h
  | cons e rest ih =>
    obtain ⟨k', f'⟩ := e
    intro h
    by_cases hk : k' = k
    · simp [updateAssoc, hk]
    · have h' : containsKey k rest = true := by
        simpa [containsKey, findKey, hk] using h
      simp [updateAssoc, hk, ih h']

theorem keys_updateAssoc_absent (k : String × String) (f : MailFolder) :
    ∀ u, containsKey k u = false →
      (updateAssoc k f u).map Prod.fst = u.map Prod.fst ++ [k] := by
  intro u
  induction u with
  | nil => intro _; simp [updateAssoc]
  | cons e rest ih =>
    obtain ⟨k', f'⟩ := e
    intro h
    by_cases hk : k' = k
    · simp [containsKey, findKey, hk] at h
    · have h' : containsKey k rest = false := by
        simpa [containsKey, findKey, hk] using h
      simp [updateAssoc, hk, ih h']

theorem keysNodup_updateAssoc (k : String × String) (f : MailFolder) :
    ∀ u, (u.map Prod.fst).Nodup → ((updateAssoc k f u).map Prod.fst).Nodup := by
  intro u hnd
  cases hc : containsKey k u
  · rw [keys_updateAssoc_absent k f u hc]
    have hfk : findKey k u = none := by
      cases hfk : findKey k u
      · rfl
      · simp [containsKey, hfk] at hc
    have hk : k ∉ u.map Prod.fst := (findKey_none_iff k u).mp hfk
    refine List.Nodup.append hnd (List.nodup_singleton k) ?_
    exact fun a ha hak => hk ((List.mem_singleton.mp hak) ▸ ha)
  · rw [keys_updateAssoc_present k f u hc]
    exact hnd

theorem entriesMatch_updateAssoc (f : MailFolder) :
    ∀ u, EntriesMatch u → EntriesMatch (updateAssoc (keyOf f) f u) := by
  intro u
  induction u with
  | nil =>
    intro _ e he
    simp [updateAssoc] at he
    rw [he]
  | cons e0 rest ih =>
    obtain ⟨k', f'⟩ := e0
    intro hm e he
    by_cases h : k' = keyOf f
    · rw [updateAssoc, if_pos h] at he
      rcases List.mem_cons.mp he with he | he
      · rw [he]
      · exact hm e (List.mem_cons_of_mem _ he)
    · rw [updateAssoc, if_neg h] at he
      rcases List.mem_cons.mp he with he | he
      · rw [he]
        exact hm (k', f') (List.mem_cons_self _ _)
      · exact ih (fun x hx => hm x (List.mem_cons_of_mem _ hx)) e he

theorem dedupStep_inv (u : List ((String × String) × MailFolder))
    (f : MailFolder) (h : DedupInv u) : DedupInv (dedupStep u f) := by
  unfold dedupStep
  by_cases hg : (!containsKey (keyOf f) u || f.is_primary) = true
  · rw [if_pos hg]
    exact ⟨entriesMatch_updateAssoc f u h.1, keysNodup_updateAssoc (keyOf f) f u h.2⟩
  · rw [if_neg hg]
    exact h

theorem foldl_dedupStep_inv : ∀ (fs : List MailFolder) u,
    DedupInv u → DedupInv (fs.foldl dedupStep u) := by
  intro fs
  induction fs with
  | nil => intro u h; exact h
  | cons f rest ih => intro u h; exact ih _ (dedupStep_inv u f h)

theorem dedupFolders_inv (fs : List MailFolder) : DedupInv (dedupFolders fs) := by
  apply foldl_dedupStep_inv
  exact ⟨fun e he => absurd he (List.not_mem_nil e), by simp⟩

theorem map_keyOf_values : ∀ u, EntriesMatch u →
    (u.map Prod.snd).map keyOf = u.map Prod.fst := by
  intro u
  induction u with
  | nil => intro _; rfl
  | cons e rest ih =>
    intro hm
    obtain ⟨k', f'⟩ := e
    have h1 : k' = keyOf f' := hm (k', f') (List.mem_cons_self _ _)
    simp [ih (fun x hx => hm x (List.mem_cons_of_mem _ hx)), h1]

theorem findKey_some_mem : ∀ u (k : String × String) (f : MailFolder),
    findKey k u = some f → (k, f) ∈ u := by
  intro u
  induction u with
  | nil => intro k f h; simp [findKey] at h
  | cons e rest ih =>
    intro k f h
    obtain ⟨k', f'⟩ := e
    by_cases hk : k' = k
    · simp [findKey, hk] at h
      exact List.mem_cons.mpr (Or.inl (by rw [hk, h]))
    · simp [findKey, hk] at h
      exact List.mem_cons_of_mem _ (ih k f h)

theorem assoc_mem_unique : ∀ (u : List ((String × String) × MailFolder))
    (k : String × String) (f g : MailFolder),
    (u.map Prod.fst).Nodup → (k, f) ∈ u → (k, g) ∈ u → f = g := by
  intro u
  induction u with
  | nil => intro k f g _ hf _; simp at hf
  | cons e rest ih =>
    intro k f g hnd hf hg
    obtain ⟨k', f'⟩ := e
    rw [List.map_cons] at hnd
    obtain ⟨hk', hrest⟩ := List.nodup_cons.mp hnd
    rcases List.mem_cons.mp hf with hf | hf <;> rcases List.mem_cons.mp hg with hg | hg
    · injection hf with h1 h2
      injection hg with h3 h4
      rw [h2, h4]
    · injection hf with h1 h2
      have hmem : k ∈ rest.map Prod.fst := List.mem_map_of_mem Prod.fst hg
      exact absurd (h1 ▸ hmem) hk'
    · injection hg with h3 h4
      have hmem : k ∈ rest.map Prod.fst := List.mem_map_of_mem Prod.fst hf
      exact absurd (h3 ▸ hmem) hk'
    · exact ih k f g hrest hf hg

theorem findKey_dedupStep_ne (u : List ((String × String) × MailFolder))
    (f : MailFolder) (k : String × String) (hne : keyOf f ≠ k) :
    findKey k (dedupStep u f) = findKey k u := by
  unfold dedupStep
  by_cases hg : (!containsKey (keyOf f) u || f.is_primary) = true
  · rw [if_pos hg]
    exact findKey_updateAssoc_ne k (keyOf f) f hne u
  · rw [if_neg hg]

theorem findKey_dedupStep_primary (u : List ((String × String) × MailFolder))
    (f : MailFolder) (hp : f.is_primary = true) :
    findKey (keyOf f) (dedupStep u f) = some f := by
  unfold dedupStep
  rw [hp, Bool.or_true, if_pos rfl]
  exact findKey_updateAssoc_self (keyOf f) f u

theorem dedupStep_nonprimary_present (u : List ((String × String) × MailFolder))
    (f p : MailFolder) (hp : f.is_primary = false)
    (hk : findKey (keyOf f) u = some p) : dedupStep u f = u := by
  unfold dedupStep
  have hc : containsKey (keyOf f) u = true := by simp [containsKey, hk]
  rw [hp, hc]
  simp

theorem foldl_dedupStep_keeps (k : String × String) (p : MailFolder) :
    ∀ (fs : List MailFolder) u, findKey k u = some p →
      (∀ f ∈ fs, keyOf f = k → f.is_primary = true → f = p) →
      findKey k (fs.foldl dedupStep u) = some p := by
  intro fs
  induction fs with
  | nil => intro u hu _; exact hu
  | cons f rest ih =>
    intro u hu hall
    have hall' : ∀ g ∈ rest, keyOf g = k → g.is_primary = true → g = p :=
      fun g hg => hall g (List.mem_cons_of_mem f hg)
    rw [List.foldl_cons]
    by_cases hk : keyOf f = k
    · cases hp : f.is_primary
      · have hstep : dedupStep u f = u :=
          dedupStep_nonprimary_present u f p hp (hk ▸ hu)
        rw [hstep]
        exact ih u hu hall'
      · have hf : f = p := hall f (List.mem_cons_self f rest) hk hp
        have hstep : findKey k (dedupStep u f) = some p := by
          rw [← hk, hf]
          exact findKey_dedupStep_primary u p (hf ▸ hp)
        exact ih _ hstep hall'
    · have hstep : findKey k (dedupStep u f) = some p := by
        rw [findKey_dedupStep_ne u f k hk]
        exact hu
      exact ih _ hstep hall'

theorem dedup_findKey_primary (p : MailFolder) (hp : p.is_primary = true) :
    ∀ (fs : List MailFolder) u, p ∈ fs →
      (∀ f ∈ fs, keyOf f = keyOf p → f.is_primary = true → f = p) →
      findKey (keyOf p) (fs.foldl dedupStep u) = some p := by
  intro fs
  induction fs with
  | nil => intro u hmem _; exact absurd hmem (List.not_mem_nil p)
  | cons f rest ih =>
    intro u hmem hall
    have hall' : ∀ g ∈ rest, keyOf g = keyOf p → g.is_primary = true → g = p :=
      fun g hg => hall g (List.mem_cons_of_mem f hg)
    rw [List.foldl_cons]
    by_cases hmr : p ∈ rest
    · exact ih (dedupStep u f) hmr hall'
    · have hf : f = p := ((List.mem_cons.mp hmem).resolve_right hmr).symm
      subst hf
      have h1 : findKey (keyOf f) (dedupStep u f) = some f :=
        findKey_dedupStep_primary u f hp
      exact foldl_dedupStep_keeps (keyOf f) f rest (dedupStep u f) h1 hall'

/-- C3: for the folder sequence of the view built by `load_initial_inbox`
(which is `aggregate_folders` applied to the concatenated per-account
catalogs): (a) it carries at most one entry per `(name, display_name)`
pair, (b) it is ordered by ascending sort rank, and (c) whenever a folder
`p` is the only primary-marked copy of its key among the input catalogs,
`p` itself survives deduplication and is the only surviving entry of that
key. -/
theorem aggregate_folders_spec (spam : SpamConfig)
    (respond : List MailMessage → SvcResponse) (clients : List MailClient)
    (folders : List MailFolder) (p : MailFolder) :
    (MailController.load_initial_inbox spam respond clients).folders
        = aggregate_folders
            (clients.foldl (fun acc c => acc ++ c.list_primary_folders) []) ∧
      ((aggregate_folders folders).map keyOf).Nodup ∧
      (aggregate_folders folders).Pairwise (fun f g => f.sort_index ≤ g.sort_index) ∧
      (p ∈ folders → p.is_primary = true →
        (∀ f ∈ folders, keyOf f = keyOf p → f.is_primary = true → f = p) →
        p ∈ aggregate_folders folders ∧
          ∀ f ∈ aggregate_folders folders, keyOf f = keyOf p → f = p) := by
  have hinv := dedupFolders_inv folders
  refine ⟨rfl, ?_, ?_, ?_⟩
  · have hperm : ((aggregate_folders folders).map keyOf).Perm
        (((dedupFolders folders).map Prod.snd).map keyOf) :=
      (List.perm_insertionSort folderOrder _).map keyOf
    rw [map_keyOf_values _ hinv.1] at hperm
    exact hperm.nodup_iff.mpr hinv.2
  · exact List.sorted_insertionSort folderOrder _
  · intro hmem hp hall
    have hfind : findKey (keyOf p) (dedupFolders folders) = some p :=
      dedup_findKey_primary p hp folders [] hmem hall
    have hpair : (keyOf p, p) ∈ dedupFolders folders :=
      findKey_some_mem _ _ _ hfind
    constructor
    · exact (List.mem_insertionSort folderOrder).mpr
        (List.mem_map_of_mem Prod.snd hpair)
    · intro f hf hkey
      have hfv : f ∈ (dedupFolders folders).map Prod.snd :=
        (List.mem_insertionSort folderOrder).mp hf
      rcases List.mem_map.mp hfv with ⟨e, he, hes⟩
      have he1 : e.1 = keyOf e.2 := hinv.1 e he
      have hepair : (keyOf p, f) ∈ dedupFolders folders := by
        have : e = (keyOf p, f) := by
          rw [Prod.ext_iff]
          exact ⟨by rw [he1, hes, hkey], hes⟩
        exact this ▸ he
      exact assoc_mem_unique _ _ _ _ hinv.2 hepair hpair

/-- C3 (witness): the theorem applied to a concrete catalog in which the
Inbox key occurs twice with exactly one primary copy: the primary entry
survives, keys are unique, and the output is rank-ordered. -/
theorem aggregate_folders_spec_witness :
    (MailController.load_initial_inbox cfgOn respSpam [demoClientA]).folders
        = aggregate_folders
            ([demoClientA].foldl (fun acc c => acc ++ c.list_primary_folders) []) ∧
      ((aggregate_folders [fInboxDup, fSent, fInboxPrimary]).map keyOf).Nodup ∧
      (aggregate_folders [fInboxDup, fSent, fInboxPrimary]).Pairwise
        (fun f g => f.sort_index ≤ g.sort_index) ∧
      (fInboxPrimary ∈ aggregate_folders [fInboxDup, fSent, fInboxPrimary] ∧
        ∀ f ∈ aggregate_folders [fInboxDup, fSent, fInboxPrimary],
          keyOf f = keyOf fInboxPrimary → f = fInboxPrimary) :=
  ⟨(aggregate_folders_spec cfgOn respSpam [demoClientA]
      [fInboxDup, fSent, fInboxPrimary] fInboxPrimary).1,
   (aggregate_folders_spec cfgOn respSpam [demoClientA]
      [fInboxDup, fSent, fInboxPrimary] fInboxPrimary).2.1,
   (aggregate_folders_spec cfgOn respSpam [demoClientA]
      [fInboxDup, fSent, fInboxPrimary] fInboxPrimary).2.2.1,
   (aggregate_folders_spec cfgOn respSpam [demoClientA]
      [fInboxDup, fSent, fInboxPrimary] fInboxPrimary).2.2.2
     (by decide) (by decide) (by decide)⟩
